import Mathlib

/-!
Shallow embedding of the ContestHub backend (src/index.js) and proofs about
its request handlers.

The server is a set of Express route handlers over four MongoDB collections
(users, contests, payments, submissions).  Each handler is embedded as a pure
Lean function from the current store state (plus the request data and the
identity attached by the JWT middleware) to an HTTP result and the next store
state.  MongoDB `updateOne` / `deleteOne` are embedded as first-match
update/delete on the collection list; `findOne` as `List.find?`; `insertOne`
as appending to the list.  `new Date()` values are passed in explicitly as
`Nat` timestamps, and generated `_id`s as explicit `String` arguments.
-/

namespace ContestHub

/-- `ObjectId.isValid` on a string: a 24-character hex string. -/
def isHexDigit (c : Char) : Bool :=
  c.isDigit || (('a' ≤ c) && (c ≤ 'f')) || (('A' ≤ c) && (c ≤ 'F'))

def isValidObjectId (s : String) : Bool :=
  s.length == 24 && s.toList.all isHexDigit

/-- Winner sub-record written by the winner-declaration route
(src/index.js lines 536-546). -/
structure Winner where
  email : String
  name : String
  image : String
  declarationDate : Nat
deriving DecidableEq, Repr

/-- A contest document.  `id` is the string form of its `_id`.  The
creator-supplied free-form fields are represented by `name` and
`contestType` (the two the handlers actually query). -/
structure Contest where
  id : String
  name : String
  contestType : String
  creator : String
  status : String
  participationCount : Int
  createdAt : Nat
  winner : Option Winner
deriving DecidableEq, Repr

/-- A user document. -/
structure User where
  id : String
  email : String
  name : String
  image : String
  role : String
  createdAt : Nat
deriving DecidableEq, Repr

/-- A payment document (src/index.js line 351 inserts the request body
as-is; `contestId` is stored as a plain string). -/
structure Payment where
  email : String
  contestId : String
  price : Rat
  transactionId : String
  date : Nat
deriving DecidableEq, Repr

/-- A submission document (src/index.js lines 465-470). -/
structure Submission where
  contestId : String
  participantEmail : String
  payload : String
  submissionDate : Nat
deriving DecidableEq, Repr

/-- The four collections of contestHubDB (src/index.js lines 43-47). -/
structure Store where
  users : List User
  contests : List Contest
  payments : List Payment
  submissions : List Submission
deriving DecidableEq, Repr

/-- An HTTP response: status code plus the `message` (or `error`) field of
the JSON body when the handler sends one. -/
structure HttpResult where
  status : Nat
  message : Option String := none
deriving DecidableEq, Repr

/-- MongoDB `updateOne`: rewrite the first element matching `p` with `f`;
the second component is the resulting `matchedCount` (0 or 1). -/
def updateFirst (p : α → Bool) (f : α → α) : List α → List α × Nat
  | [] => ([], 0)
  | x :: xs =>
    if p x then (f x :: xs, 1)
    else
      let r := updateFirst p f xs
      (x :: r.1, r.2)

/-- MongoDB `deleteOne`: remove the first element matching `p`; the second
component is the resulting `deletedCount` (0 or 1). -/
def deleteFirst (p : α → Bool) : List α → List α × Nat
  | [] => ([], 0)
  | x :: xs =>
    if p x then (xs, 1)
    else
      let r := deleteFirst p xs
      (x :: r.1, r.2)

/-- The module-level collection handles bound in `run()`
(src/index.js lines 31-34 / 44-47).  `contestCollection` (singular) is not
among them. -/
def boundCollectionNames : List String :=
  ["usersCollection", "contestsCollection", "paymentsCollection", "submissionsCollection"]

/-- GET /contests/popular (src/index.js lines 95-108).  The handler body
reads the identifier `contestCollection`, which is never bound anywhere in
the file (the handle is named `contestsCollection`), so evaluating the body
throws a ReferenceError inside the `try` and the `catch` branch answers
500.  The success branch below (which would run the intended
status-approved query) is reachable only if that name were bound, which the
guard shows it is not. -/
def getContestsPopular (s : Store) : HttpResult × Store :=
  if boundCollectionNames.contains "contestCollection" then
    (⟨200, none⟩, s)
  else
    (⟨500, some "Failed to fetch popular contests"⟩, s)

/-- Request body of POST /contests.  The handler spreads the body and then
overwrites `status`, `participationCount`, `creator` and `createdAt`
(src/index.js lines 153-159), so a client-supplied `status` or
`participationCount` is listed here only to show it is discarded.  A
client-supplied `winner` field would survive the spread, so it is kept. -/
structure ContestBody where
  name : String
  contestType : String
  status : Option String := none
  participationCount : Option Int := none
  winner : Option Winner := none
deriving DecidableEq, Repr

/-- POST /contests (src/index.js lines 149-163), after the verifyToken and
verifyCreator gates have passed; `creatorEmail` is `req.decoded.email`,
`now` is `new Date()`, `newId` the generated `_id`. -/
def postContests (s : Store) (body : ContestBody) (creatorEmail : String)
    (now : Nat) (newId : String) : HttpResult × Store :=
  let contestToInsert : Contest :=
    { id := newId
      name := body.name
      contestType := body.contestType
      status := "Pending"
      participationCount := 0
      creator := creatorEmail
      createdAt := now
      winner := body.winner }
  (⟨200, none⟩, { s with contests := s.contests ++ [contestToInsert] })

/-- GET /popular-contests (src/index.js lines 263-272): filter
status Accepted, sort by `participationCount` descending, limit 5. -/
def popularContests (s : Store) : List Contest :=
  (((s.contests.filter (fun c => c.status == "Accepted")).mergeSort
      (fun a b => b.participationCount ≤ a.participationCount)).take 5)

/-- Request body of PATCH /contests/creator/edit/:id.  The handler applies
`$set: req.body` wholesale (src/index.js lines 191-193), so any document
field the client names is overwritten; the fields modelled on `Contest` are
listed here, each optional (absent = not named in the body). -/
structure ContestPatch where
  name : Option String := none
  contestType : Option String := none
  status : Option String := none
  participationCount : Option Int := none
deriving DecidableEq, Repr

/-- `$set` of the named fields onto a contest document. -/
def applyPatch (p : ContestPatch) (c : Contest) : Contest :=
  { c with
    name := p.name.getD c.name
    contestType := p.contestType.getD c.contestType
    status := p.status.getD c.status
    participationCount := p.participationCount.getD c.participationCount }

/-- PATCH /contests/creator/edit/:id (src/index.js lines 174-201), after the
verifyToken and verifyCreator gates; `creatorEmail` is `req.decoded.email`. -/
def patchCreatorEdit (s : Store) (id : String) (body : ContestPatch)
    (creatorEmail : String) : HttpResult × Store :=
  if !isValidObjectId id then
    (⟨400, some "Invalid Contest ID"⟩, s)
  else
    let r := updateFirst
      (fun c => c.id == id && c.creator == creatorEmail && c.status == "Pending")
      (applyPatch body) s.contests
    if r.2 == 0 then
      (⟨403, some "Forbidden: Contest either Confirmed/Rejected or does not belong to this creator."⟩, s)
    else
      (⟨200, none⟩, { s with contests := r.1 })

/-- DELETE /contests/creator/:id (src/index.js lines 204-225). -/
def deleteCreatorContest (s : Store) (id : String) (creatorEmail : String) :
    HttpResult × Store :=
  if !isValidObjectId id then
    (⟨400, some "Invalid Contest ID"⟩, s)
  else
    let r := deleteFirst
      (fun c => c.id == id && c.creator == creatorEmail && c.status == "Pending")
      s.contests
    if r.2 == 0 then
      (⟨403, some "Forbidden: Contest either Confirmed/Rejected or does not belong to this creator."⟩, s)
    else
      (⟨200, none⟩, { s with contests := r.1 })

/-- JavaScript `parseInt(x)` on a finite number: the string form is cut at
the decimal point, i.e. truncation toward zero. -/
def jsTrunc (x : Rat) : Int :=
  if 0 ≤ x then ⌊x⌋ else ⌈x⌉

/-- POST /create-payment-intent (src/index.js lines 319-345), after
verifyToken.  `providerSecret` is the outcome of the Stripe
`paymentIntents.create` call: `some secret` on success, `none` on a thrown
provider error.  The handler touches no collection, so the store is
returned untouched on every path; the middle component is the
`clientSecret` sent to the client, when any. -/
def createPaymentIntent (s : Store) (price : Rat)
    (providerSecret : Option String) : HttpResult × Option String × Store :=
  let amount := jsTrunc (price * 100)
  if amount < 1 then
    (⟨400, some "Payment amount must be greater than zero."⟩, none, s)
  else
    match providerSecret with
    | some secret => (⟨200, none⟩, some secret, s)
    | none => (⟨500, some "Failed to create payment intent."⟩, none, s)

/-- POST /payments (src/index.js lines 347-371), after verifyToken.  The
payment body is inserted unconditionally, then `updateOne` with
`$inc participationCount: 1` runs against `new ObjectId(payment.contestId)`.
When `contestId` is not a valid ObjectId string that constructor throws
after the insert and no response is sent, which `none` represents; the
handler answers 200 regardless of the update's matchedCount. -/
def postPayments (s : Store) (payment : Payment) :
    Option (HttpResult × Store) :=
  let s1 := { s with payments := s.payments ++ [payment] }
  if isValidObjectId payment.contestId then
    let r := updateFirst (fun c => c.id == payment.contestId)
      (fun c => { c with participationCount := c.participationCount + 1 })
      s1.contests
    some (⟨200, none⟩, { s1 with contests := r.1 })
  else
    none

/-- Request body of POST /submissions.  The handler spreads the body and
then overwrites `participantEmail` and `submissionDate`
(src/index.js lines 465-470), so client-supplied values for those two are
listed only to show they are discarded. -/
structure SubmissionBody where
  contestId : String
  payload : String := ""
  participantEmail : Option String := none
  submissionDate : Option Nat := none
deriving DecidableEq, Repr

/-- POST /submissions (src/index.js lines 439-474), after verifyToken;
`userEmail` is `req.decoded.email`, `now` is `new Date()`. -/
def postSubmissions (s : Store) (body : SubmissionBody) (userEmail : String)
    (now : Nat) : HttpResult × Store :=
  let contestId := body.contestId
  match s.payments.find? (fun p => p.email == userEmail && p.contestId == contestId) with
  | none =>
    (⟨403, some "Forbidden: You must pay to participate in this contest."⟩, s)
  | some _ =>
    match s.submissions.find?
        (fun sub => sub.contestId == contestId && sub.participantEmail == userEmail) with
    | some _ =>
      (⟨400, some "Bad Request: You have already submitted an entry for this contest."⟩, s)
    | none =>
      let submissionToInsert : Submission :=
        { contestId := contestId
          payload := body.payload
          participantEmail := userEmail
          submissionDate := now }
      (⟨200, none⟩, { s with submissions := s.submissions ++ [submissionToInsert] })

/-- PATCH /contests/winner/:contestId (src/index.js lines 505-555), after
verifyToken and verifyCreator; `creatorEmail` is `req.decoded.email`.  The
submissions lookup at lines 525-532 only logs a warning and changes no
behaviour, so it is not modelled.  Note the status-Completed write is
guarded only by ownership: the contest's current status is never read. -/
def patchContestWinner (s : Store) (contestId : String)
    (winnerEmail winnerName winnerImage : String) (creatorEmail : String)
    (now : Nat) : HttpResult × Store :=
  if !isValidObjectId contestId then
    (⟨400, some "Invalid Contest ID"⟩, s)
  else
    match s.contests.find? (fun c => c.id == contestId && c.creator == creatorEmail) with
    | none =>
      (⟨403, some "Forbidden: You are not the creator of this contest."⟩, s)
    | some _ =>
      let r := updateFirst (fun c => c.id == contestId)
        (fun c =>
          { c with
            winner := some ⟨winnerEmail, winnerName, winnerImage, now⟩
            status := "Completed" })
        s.contests
      if r.2 == 0 then
        (⟨404, some "Contest not found"⟩, s)
      else
        (⟨200, none⟩, { s with contests := r.1 })

/-- PATCH /users/role/:id (src/index.js lines 634-655), after verifyToken
and verifyAdmin; `role` comes from the request body unvalidated. -/
def patchUserRole (s : Store) (id : String) (role : String) :
    HttpResult × Store :=
  if !isValidObjectId id then
    (⟨400, some "Invalid User ID"⟩, s)
  else
    let r := updateFirst (fun u => u.id == id) (fun u => { u with role := role })
      s.users
    if r.2 == 0 then
      (⟨404, some "User not found"⟩, s)
    else
      (⟨200, none⟩, { s with users := r.1 })

/-- PATCH /contests/status/:id (src/index.js lines 666-687), after
verifyToken and verifyAdmin; `status` comes from the request body
unvalidated and the filter is `_id` alone, so the current status is never
consulted. -/
def patchContestStatus (s : Store) (id : String) (status : String) :
    HttpResult × Store :=
  if !isValidObjectId id then
    (⟨400, some "Invalid Contest ID"⟩, s)
  else
    let r := updateFirst (fun c => c.id == id) (fun c => { c with status := status })
      s.contests
    if r.2 == 0 then
      (⟨404, some "Contest not found"⟩, s)
    else
      (⟨200, none⟩, { s with contests := r.1 })

/-- Request body of POST /users.  The handler spreads the body and then
overwrites `role` and `createdAt` (src/index.js lines 718-722). -/
structure UserBody where
  email : String
  name : String := ""
  image : String := ""
  role : Option String := none
deriving DecidableEq, Repr

/-- Result body of POST /users: the `message` field when the email already
exists, and the `insertedId` of the insertOne result otherwise. -/
structure PostUsersResult where
  message : Option String
  insertedId : Option String
deriving DecidableEq, Repr

/-- POST /users (src/index.js lines 705-726; the same handler appears in
src/unnamed/part_000 lines 58-79): insert only when no user with the body's
email exists, defaulting `role` to User. -/
def postUsers (s : Store) (body : UserBody) (newId : String) (now : Nat) :
    PostUsersResult × Store :=
  match s.users.find? (fun u => u.email == body.email) with
  | some _ =>
    ({ message := some "User already exists", insertedId := none }, s)
  | none =>
    let userToInsert : User :=
      { id := newId
        email := body.email
        name := body.name
        image := body.image
        role := "User"
        createdAt := now }
    ({ message := none, insertedId := some newId },
      { s with users := s.users ++ [userToInsert] })

/-- GET /users/:email (src/index.js lines 731-736; also
src/unnamed/part_000 lines 82-87): `res.send(user)` with whatever `findOne`
returned, so the status is 200 whether or not a user was found; the second
component is the body (`none` = the null/empty body sent for a missing
user). -/
def getUsersByEmail (s : Store) (email : String) : Nat × Option User :=
  (200, s.users.find? (fun u => u.email == email))

/-! ### Helper lemmas about the embedded store operations -/

theorem updateFirst_no_match (p : α → Bool) (f : α → α) (l : List α)
    (h : ∀ x ∈ l, p x = false) : updateFirst p f l = (l, 0) := by
  induction l with
  | nil => rfl
  | cons a as ih =>
    have ha := h a (by simp)
    simp [updateFirst, ha, ih (fun x hx => h x (by simp [hx]))]

theorem updateFirst_first_match (p : α → Bool) (f : α → α) (pre post : List α)
    (c : α) (hpre : ∀ x ∈ pre, p x = false) (hc : p c = true) :
    updateFirst p f (pre ++ c :: post) = (pre ++ f c :: post, 1) := by
  induction pre with
  | nil => simp [updateFirst, hc]
  | cons a as ih =>
    have ha := hpre a (by simp)
    simp [updateFirst, ha, ih (fun x hx => hpre x (by simp [hx]))]

theorem deleteFirst_no_match (p : α → Bool) (l : List α)
    (h : ∀ x ∈ l, p x = false) : deleteFirst p l = (l, 0) := by
  induction l with
  | nil => rfl
  | cons a as ih =>
    have ha := h a (by simp)
    simp [deleteFirst, ha, ih (fun x hx => h x (by simp [hx]))]

theorem deleteFirst_first_match (p : α → Bool) (pre post : List α)
    (c : α) (hpre : ∀ x ∈ pre, p x = false) (hc : p c = true) :
    deleteFirst p (pre ++ c :: post) = (pre ++ post, 1) := by
  induction pre with
  | nil => simp [deleteFirst, hc]
  | cons a as ih =>
    have ha := hpre a (by simp)
    simp [deleteFirst, ha, ih (fun x hx => hpre x (by simp [hx]))]

theorem find?_first_match (p : α → Bool) (pre post : List α) (c : α)
    (hpre : ∀ x ∈ pre, p x = false) (hc : p c = true) :
    (pre ++ c :: post).find? p = some c := by
  induction pre with
  | nil => simp [List.find?, hc]
  | cons a as ih =>
    have ha := hpre a (by simp)
    simp [List.find?, ha, ih (fun x hx => hpre x (by simp [hx]))]

/-! ### Claim theorems -/

/-- Claim C10: for every request and every store state, GET /contests/popular
responds 500 with the message "Failed to fetch popular contests" and never
returns contest data, because the handler body references the unbound
identifier `contestCollection` (the handle is named `contestsCollection`),
so the catch branch is always taken. -/
theorem contests_popular_always_500 (s : Store) :
    getContestsPopular s = (⟨500, some "Failed to fetch popular contests"⟩, s) := rfl

/-- Claim C6: every contest inserted by POST /contests from a Creator-role
caller has status Pending, participationCount 0, and creator equal to the
authenticated caller's email, whatever the request body (including any
client-supplied status or participationCount) contained. -/
theorem contests_create_defaults (s : Store) (body : ContestBody)
    (creatorEmail : String) (now : Nat) (newId : String) :
    ∃ c : Contest,
      (postContests s body creatorEmail now newId).2.contests = s.contests ++ [c] ∧
      c.status = "Pending" ∧ c.participationCount = 0 ∧ c.creator = creatorEmail := by
  exact ⟨_, rfl, rfl, rfl, rfl⟩

/-- Claim C8: for every state of the contest store, GET /popular-contests
returns at most 5 records, every returned record has status Accepted, and
the list is non-increasing by participationCount. -/
theorem popular_contests_spec (s : Store) :
    (popularContests s).length ≤ 5 ∧
    (∀ c ∈ popularContests s, c.status = "Accepted") ∧
    (popularContests s).Pairwise
      (fun a b => b.participationCount ≤ a.participationCount) := by
  refine ⟨List.length_take_le 5 _, ?_, ?_⟩
  · intro c hc
    have hmem : c ∈ (s.contests.filter (fun c => c.status == "Accepted")).mergeSort
        (fun a b => b.participationCount ≤ a.participationCount) :=
      List.take_subset 5 _ hc
    have := List.mem_mergeSort.mp hmem
    have := List.of_mem_filter this
    simpa using this
  · have hsorted : (((s.contests.filter (fun c => c.status == "Accepted")).mergeSort
        (fun a b => b.participationCount ≤ a.participationCount))).Pairwise
        (fun a b => (decide (b.participationCount ≤ a.participationCount)) = true) := by
      apply List.sorted_mergeSort
      · intro a b c hab hbc
        simp only [decide_eq_true_eq] at *
        exact le_trans hbc hab
      · intro a b
        simp only [Bool.or_eq_true, decide_eq_true_eq]
        exact le_total b.participationCount a.participationCount
    have htake := hsorted.sublist (List.take_sublist 5 _)
    exact htake.imp (fun h => by simpa using h)

/-- Claim C3: an authenticated POST /submissions by participant `userEmail`
for the body's contest fails 403 when no payment record exists for that
(email, contest) pair; fails 400 when a submission for the pair already
exists; and otherwise inserts exactly one submission for the pair with the
server-assigned timestamp, after which a repeat for the same pair gets 400,
so at most one submission per pair ever succeeds. -/
theorem submissions_gating (s : Store) (body : SubmissionBody)
    (userEmail : String) (now now2 : Nat) :
    (s.payments.find? (fun p => p.email == userEmail && p.contestId == body.contestId) = none →
      postSubmissions s body userEmail now =
        (⟨403, some "Forbidden: You must pay to participate in this contest."⟩, s)) ∧
    ((∃ p, s.payments.find?
        (fun p => p.email == userEmail && p.contestId == body.contestId) = some p) →
      ((∃ sub, s.submissions.find?
          (fun sub => sub.contestId == body.contestId && sub.participantEmail == userEmail) =
            some sub) →
        postSubmissions s body userEmail now =
          (⟨400, some "Bad Request: You have already submitted an entry for this contest."⟩, s)) ∧
      (s.submissions.find?
          (fun sub => sub.contestId == body.contestId && sub.participantEmail == userEmail) =
            none →
        postSubmissions s body userEmail now =
          (⟨200, none⟩,
            { s with submissions := s.submissions ++
                [{ contestId := body.contestId, participantEmail := userEmail,
                   payload := body.payload, submissionDate := now }] }) ∧
        (postSubmissions
            { s with submissions := s.submissions ++
                [{ contestId := body.contestId, participantEmail := userEmail,
                   payload := body.payload, submissionDate := now }] }
            body userEmail now2).1 =
          ⟨400, some "Bad Request: You have already submitted an entry for this contest."⟩)) := by
  refine ⟨fun h => by simp [postSubmissions, h], ?_⟩
  rintro ⟨p, hp⟩
  refine ⟨fun h2 => ?_, fun hnone => ?_⟩
  · obtain ⟨sub, hsub⟩ := h2
    simp [postSubmissions, hp, hsub]
  · have hall : ∀ x ∈ s.submissions,
        (x.contestId == body.contestId && x.participantEmail == userEmail) = false := by
      intro x hx
      exact Bool.eq_false_iff.mpr (List.find?_eq_none.mp hnone x hx)
    have hfind := find?_first_match
      (fun sub => sub.contestId == body.contestId && sub.participantEmail == userEmail)
      s.submissions []
      { contestId := body.contestId, participantEmail := userEmail,
        payload := body.payload, submissionDate := now }
      hall (by simp)
    exact ⟨by simp [postSubmissions, hp, hnone], by simp [postSubmissions, hp, hfind]⟩

/-- Claim C7: POST /users registration is idempotent per email: a first
registration on a store with no user of that email inserts exactly one user
record with role defaulted to User, and a second registration with the same
email inserts nothing, leaves the store unchanged, and responds with the
message "User already exists" and a null insertedId. -/
theorem users_registration_idempotent (s : Store) (b b2 : UserBody)
    (id1 id2 : String) (n1 n2 : Nat)
    (hemail : b2.email = b.email)
    (h : s.users.find? (fun u => u.email == b.email) = none) :
    (postUsers s b id1 n1).1.insertedId = some id1 ∧
    (∃ u : User, (postUsers s b id1 n1).2.users = s.users ++ [u] ∧
      u.email = b.email ∧ u.role = "User") ∧
    ((postUsers s b id1 n1).2.users.countP (fun u => u.email == b.email) = 1) ∧
    postUsers (postUsers s b id1 n1).2 b2 id2 n2 =
      ({ message := some "User already exists", insertedId := none },
        (postUsers s b id1 n1).2) := by
  have hzero : s.users.countP (fun u => u.email == b.email) = 0 :=
    List.countP_eq_zero.mpr (List.find?_eq_none.mp h)
  refine ⟨by simp [postUsers, h],
    ⟨{ id := id1, email := b.email, name := b.name, image := b.image,
       role := "User", createdAt := n1 }, by simp [postUsers, h], rfl, rfl⟩, ?_, ?_⟩
  · simp [postUsers, h, List.countP_append, hzero, List.countP_cons]
  · have hfind := find?_first_match (fun u => u.email == b2.email) s.users []
      { id := id1, email := b.email, name := b.name, image := b.image,
        role := "User", createdAt := n1 }
      (fun x hx => by
        have := List.find?_eq_none.mp h x hx
        simp only [hemail]
        exact Bool.eq_false_iff.mpr this)
      (by simp [hemail])
    simp [postUsers, h, hfind]

/-- Turn the propositional failure of the creator-route filter into the
Bool form used by the embedded `updateOne`/`deleteOne` filter. -/
theorem creatorFilter_false (id email : String) (x : Contest)
    (hx : ¬(x.id = id ∧ x.creator = email ∧ x.status = "Pending")) :
    (x.id == id && x.creator == email && x.status == "Pending") = false := by
  refine Bool.eq_false_iff.mpr fun htrue => hx ?_
  simp only [Bool.and_eq_true, beq_iff_eq] at htrue
  exact ⟨htrue.1.1, htrue.1.2, htrue.2⟩

/-- Claim C9: for a creator edit or creator delete with a well-formed id,
the operation succeeds exactly when some stored contest has that id, the
caller as creator, and status Pending; when no such record exists both
routes answer 403 with one and the same error message, so the response
does not distinguish wrong-owner from wrong-status. -/
theorem creator_edit_delete_gating (s : Store) (id : String)
    (body : ContestPatch) (email : String)
    (hvalid : isValidObjectId id = true) :
    ((∀ c ∈ s.contests, ¬(c.id = id ∧ c.creator = email ∧ c.status = "Pending")) →
      ∃ m, patchCreatorEdit s id body email = (⟨403, some m⟩, s) ∧
        deleteCreatorContest s id email = (⟨403, some m⟩, s)) ∧
    (∀ pre c post, s.contests = pre ++ c :: post →
      (∀ x ∈ pre, ¬(x.id = id ∧ x.creator = email ∧ x.status = "Pending")) →
      c.id = id → c.creator = email → c.status = "Pending" →
      patchCreatorEdit s id body email =
        (⟨200, none⟩, { s with contests := pre ++ applyPatch body c :: post }) ∧
      deleteCreatorContest s id email =
        (⟨200, none⟩, { s with contests := pre ++ post })) := by
  constructor
  · intro hno
    have hall : ∀ x ∈ s.contests,
        (x.id == id && x.creator == email && x.status == "Pending") = false :=
      fun x hx => creatorFilter_false id email x (hno x hx)
    have hupd := updateFirst_no_match
      (fun c => c.id == id && c.creator == email && c.status == "Pending")
      (applyPatch body) s.contests hall
    have hdel := deleteFirst_no_match
      (fun c => c.id == id && c.creator == email && c.status == "Pending")
      s.contests hall
    exact ⟨"Forbidden: Contest either Confirmed/Rejected or does not belong to this creator.",
      by simp [patchCreatorEdit, hvalid, hupd],
      by simp [deleteCreatorContest, hvalid, hdel]⟩
  · intro pre c post hsplit hpre hid hcr hst
    have hpreb : ∀ x ∈ pre,
        (x.id == id && x.creator == email && x.status == "Pending") = false :=
      fun x hx => creatorFilter_false id email x (hpre x hx)
    have hcb : (c.id == id && c.creator == email && c.status == "Pending") = true := by
      simp [hid, hcr, hst]
    have hupd := updateFirst_first_match
      (fun c => c.id == id && c.creator == email && c.status == "Pending")
      (applyPatch body) pre post c hpreb hcb
    have hdel := deleteFirst_first_match
      (fun c => c.id == id && c.creator == email && c.status == "Pending")
      pre post c hpreb hcb
    exact ⟨by simp [patchCreatorEdit, hvalid, hsplit, hupd],
      by simp [deleteCreatorContest, hvalid, hsplit, hdel]⟩

/-! ### Concrete fixtures -/

def emptyStore : Store :=
  { users := [], contests := [], payments := [], submissions := [] }

def oid1 : String := "aaaaaaaaaaaaaaaaaaaaaaaa"

def oid2 : String := "bbbbbbbbbbbbbbbbbbbbbbbb"

/-- A Pending contest owned by creator@example.com. -/
def pendingContest : Contest :=
  { id := oid1, name := "Logo Design", contestType := "Design",
    creator := "creator@example.com", status := "Pending",
    participationCount := 0, createdAt := 0, winner := none }

def storePending : Store :=
  { users := [], contests := [pendingContest], payments := [], submissions := [] }

/-- The same Pending contest with five recorded participations. -/
def pendingContest5 : Contest :=
  { pendingContest with participationCount := 5 }

def storePending5 : Store :=
  { users := [], contests := [pendingContest5], payments := [], submissions := [] }

def paymentEx : Payment :=
  { email := "user@example.com", contestId := oid1, price := 10,
    transactionId := "tx1", date := 1 }

def storePaid : Store :=
  { users := [], contests := [pendingContest], payments := [paymentEx],
    submissions := [] }

def submissionBodyEx : SubmissionBody := { contestId := oid1, payload := "entry" }

def acceptedContest : Contest :=
  { id := oid2, name := "Photo Contest", contestType := "Photo",
    creator := "creator@example.com", status := "Accepted",
    participationCount := 3, createdAt := 0, winner := none }

def storeAccepted : Store :=
  { users := [], contests := [acceptedContest], payments := [], submissions := [] }

def userBodyEx : UserBody := { email := "new@example.com", name := "New User" }

/-- Claim C1 fails on the code: the winner route never reads the contest's
current status, so a successful PATCH /contests/winner/:contestId on a
contest whose status is Pending (not Accepted) does move it to Completed. -/
theorem status_transitions_counterexample :
    pendingContest.status = "Pending" ∧
    (patchContestWinner storePending oid1 "winner@example.com" "Winner" "img.png"
        "creator@example.com" 5).1.status = 200 ∧
    ((patchContestWinner storePending oid1 "winner@example.com" "Winner" "img.png"
        "creator@example.com" 5).2.contests.map Contest.status) = ["Completed"] := by
  decide

/-- Claim C1 amended: the admin status route overwrites the status of any
existing contest with the client-supplied value regardless of the current
status, and the creator winner route sets status Completed (with the winner
sub-record) on any contest owned by the caller regardless of the current
status; so Rejected and Completed are not terminal, and a successful winner
PATCH moves even a non-Accepted contest to Completed. -/
theorem status_transitions_amended (s : Store)
    (id st wEmail wName wImg cEmail : String) (now : Nat)
    (pre post : List Contest) (c : Contest)
    (hvalid : isValidObjectId id = true)
    (hsplit : s.contests = pre ++ c :: post)
    (hpre : ∀ x ∈ pre, x.id ≠ id)
    (hid : c.id = id) :
    patchContestStatus s id st =
      (⟨200, none⟩, { s with contests := pre ++ { c with status := st } :: post }) ∧
    (c.creator = cEmail →
      patchContestWinner s id wEmail wName wImg cEmail now =
        (⟨200, none⟩, { s with contests :=
          pre ++ { c with
            status := "Completed",
            winner := some { email := wEmail, name := wName, image := wImg,
                             declarationDate := now } } :: post })) := by
  have hpreb : ∀ x ∈ pre, (x.id == id) = false := fun x hx =>
    Bool.eq_false_iff.mpr (by simpa using hpre x hx)
  have hcb : (c.id == id) = true := by simp [hid]
  constructor
  · have hupd := updateFirst_first_match (fun c => c.id == id)
      (fun c => { c with status := st }) pre post c hpreb hcb
    simp [patchContestStatus, hvalid, hsplit, hupd]
  · intro hcr
    have hfind := find?_first_match (fun x => x.id == id && x.creator == cEmail)
      pre post c (fun x hx => by simp [hpreb x hx]) (by simp [hid, hcr])
    have hupd := updateFirst_first_match (fun x => x.id == id)
      (fun x => { x with
        winner := some { email := wEmail, name := wName, image := wImg,
                         declarationDate := now }
        status := "Completed" }) pre post c hpreb hcb
    simp [patchContestWinner, hvalid, hsplit, hfind, hupd]

/-- Claim C2 fails on the code: PATCH /contests/creator/edit/:id applies
`$set: req.body` wholesale, so a body naming `participationCount` changes
(here: decreases from 5 to 0) the counter of a Pending contest. -/
theorem participation_counter_counterexample :
    storePending5.contests.map Contest.participationCount = [5] ∧
    (patchCreatorEdit storePending5 oid1 { participationCount := some 0 }
        "creator@example.com").1.status = 200 ∧
    ((patchCreatorEdit storePending5 oid1 { participationCount := some 0 }
        "creator@example.com").2.contests.map Contest.participationCount) = [0] := by
  decide

/-- Claim C2 amended: POST /payments with a valid contestId appends the
payment record and increments the referenced contest's participationCount
by exactly 1; the counter is not otherwise monotone, because the creator
edit route `$set`s arbitrary client-supplied fields (including
participationCount) on a Pending contest owned by the caller. -/
theorem payments_increment_amended (s : Store) (payment : Payment)
    (pre post : List Contest) (c : Contest)
    (hvalid : isValidObjectId payment.contestId = true)
    (hsplit : s.contests = pre ++ c :: post)
    (hpre : ∀ x ∈ pre, x.id ≠ payment.contestId)
    (hid : c.id = payment.contestId) :
    postPayments s payment = some
      (⟨200, none⟩,
        { s with
          payments := s.payments ++ [payment],
          contests := pre ++
            { c with participationCount := c.participationCount + 1 } :: post }) := by
  have hpreb : ∀ x ∈ pre, (x.id == payment.contestId) = false := fun x hx =>
    Bool.eq_false_iff.mpr (by simpa using hpre x hx)
  have hcb : (c.id == payment.contestId) = true := by simp [hid]
  have hupd := updateFirst_first_match (fun x => x.id == payment.contestId)
    (fun x => { x with participationCount := x.participationCount + 1 })
    pre post c hpreb hcb
  simp [postPayments, hvalid, hsplit, hupd]

/-- Claim C4 fails on the code: the price 0.005 is positive, yet the
computed cents amount `parseInt(0.005 * 100) = 0` is below 1, so the
handler answers 400 instead of returning a client secret. -/
theorem payment_intent_counterexample :
    (0 : Rat) < 1/200 ∧
    createPaymentIntent emptyStore (1/200) (some "cs_test") =
      (⟨400, some "Payment amount must be greater than zero."⟩, none, emptyStore) := by
  constructor
  · norm_num
  · have h : ((1:Rat)/200 * 100) = 1/2 := by norm_num
    have hval : jsTrunc ((1:Rat)/2) = 0 := by
      rw [jsTrunc]
      norm_num
    simp only [createPaymentIntent, h, hval]
    norm_num

/-- Claim C4 amended: POST /create-payment-intent fails with 400 exactly
when the truncated-cents amount `parseInt(price * 100)` is less than 1;
this covers every price that is 0 or negative but also positive prices
below one cent, so not every positive price yields a client secret.  When
the amount is at least 1 and the provider call succeeds, the handler
returns the provider's client secret and touches no collection. -/
theorem payment_intent_amended (s : Store) (price : Rat) (secret : String) :
    (jsTrunc (price * 100) < 1 →
      createPaymentIntent s price (some secret) =
        (⟨400, some "Payment amount must be greater than zero."⟩, none, s)) ∧
    (price ≤ 0 → jsTrunc (price * 100) < 1) ∧
    (1 ≤ jsTrunc (price * 100) →
      createPaymentIntent s price (some secret) = (⟨200, none⟩, some secret, s)) := by
  refine ⟨fun h => by simp [createPaymentIntent, h], fun hp => ?_, fun h => ?_⟩
  · have h100 : price * 100 ≤ 0 := by
      have := mul_le_mul_of_nonneg_right hp (by norm_num : (0:Rat) ≤ 100)
      simpa using this
    rw [jsTrunc]
    split
    · have hfl : ⌊price * 100⌋ ≤ 0 := by simpa using Int.floor_mono h100
      omega
    · have hcl : ⌈price * 100⌉ ≤ 0 := by simpa using Int.ceil_mono h100
      omega
  · have hnot : ¬ jsTrunc (price * 100) < 1 := not_lt.mpr h
    simp [createPaymentIntent, hnot]

/-- Claim C5 fails on the code: GET /users/:email for an email with no user
record sends the null `findOne` result with status 200, not 404. -/
theorem users_lookup_counterexample :
    (getUsersByEmail emptyStore "nobody@example.com").1 = 200 ∧
    (getUsersByEmail emptyStore "nobody@example.com").1 ≠ 404 ∧
    (getUsersByEmail emptyStore "nobody@example.com").2 = none := by
  decide

/-- Claim C5 amended: PATCH /users/role/:id answers 400 for a malformed id
and 404 for a well-formed id matching no stored user, but GET /users/:email
does not follow the 404 rule: with no matching user it answers 200 with a
null body. -/
theorem users_lookup_amended (s : Store) (id email role : String) :
    (isValidObjectId id = false →
      patchUserRole s id role = (⟨400, some "Invalid User ID"⟩, s)) ∧
    (isValidObjectId id = true → (∀ u ∈ s.users, u.id ≠ id) →
      patchUserRole s id role = (⟨404, some "User not found"⟩, s)) ∧
    ((∀ u ∈ s.users, u.email ≠ email) → getUsersByEmail s email = (200, none)) := by
  refine ⟨fun h => by simp [patchUserRole, h], fun hv hno => ?_, fun hno => ?_⟩
  · have hall : ∀ u ∈ s.users, (u.id == id) = false := fun u hu =>
      Bool.eq_false_iff.mpr (by simpa using hno u hu)
    have hupd := updateFirst_no_match (fun u => u.id == id)
      (fun u => { u with role := role }) s.users hall
    simp [patchUserRole, hv, hupd]
  · have hfind : s.users.find? (fun u => u.email == email) = none :=
      List.find?_eq_none.mpr (fun u hu => by simp [hno u hu])
    simp [getUsersByEmail, hfind]

/-! ### Witnesses: the hypothesis-bearing theorems applied at concrete inputs -/

/-- popular_contests_spec applied to a store holding one Accepted contest. -/
theorem popular_contests_spec_witness :
    acceptedContest ∈ popularContests storeAccepted ∧
    acceptedContest.status = "Accepted" :=
  ⟨by simp [popularContests, storeAccepted, acceptedContest],
    (popular_contests_spec storeAccepted).2.1 acceptedContest
      (by simp [popularContests, storeAccepted, acceptedContest])⟩

/-- submissions_gating applied to a paid-up participant with no prior
submission: the insert succeeds. -/
theorem submissions_gating_witness :
    (postSubmissions storePaid submissionBodyEx "user@example.com" 7).1 =
      ⟨200, none⟩ := by
  have h := ((submissions_gating storePaid submissionBodyEx "user@example.com" 7 8).2
    ⟨paymentEx, by decide⟩).2 (by decide)
  rw [h.1]

/-- users_registration_idempotent applied to a fresh email on the empty
store. -/
theorem users_registration_idempotent_witness :
    (postUsers emptyStore userBodyEx "u1" 1).1.insertedId = some "u1" :=
  (users_registration_idempotent emptyStore userBodyEx userBodyEx "u1" "u2" 1 2
    rfl (by decide)).1

/-- creator_edit_delete_gating applied to the owner of a Pending contest:
the delete succeeds. -/
theorem creator_edit_delete_gating_witness :
    deleteCreatorContest storePending oid1 "creator@example.com" =
      (⟨200, none⟩, { storePending with contests := [] }) := by
  have h := ((creator_edit_delete_gating storePending oid1 {} "creator@example.com"
    (by decide)).2 [] pendingContest [] rfl (by simp) rfl rfl rfl).2
  simpa using h

/-- status_transitions_amended applied to a one-contest store. -/
theorem status_transitions_amended_witness :
    patchContestStatus storePending oid1 "Rejected" =
      (⟨200, none⟩, { storePending with
        contests := [] ++ { pendingContest with status := "Rejected" } :: [] }) :=
  (status_transitions_amended storePending oid1 "Rejected" "w@example.com" "W"
    "i.png" "creator@example.com" 3 [] [] pendingContest (by decide) rfl
    (by simp) rfl).1

/-- payments_increment_amended applied to a one-contest store. -/
theorem payments_increment_amended_witness :
    postPayments storePending paymentEx = some
      (⟨200, none⟩,
        { storePending with
          payments := storePending.payments ++ [paymentEx],
          contests := [] ++
            { pendingContest with
              participationCount := pendingContest.participationCount + 1 } :: [] }) :=
  payments_increment_amended storePending paymentEx [] [] pendingContest
    (by decide) rfl (by simp) rfl

/-- payment_intent_amended applied at price 20: amount 2000 passes the
check and the provider secret is returned. -/
theorem payment_intent_amended_witness :
    createPaymentIntent emptyStore 20 (some "cs_test") =
      (⟨200, none⟩, some "cs_test", emptyStore) :=
  (payment_intent_amended emptyStore 20 "cs_test").2.2
    (by simp [jsTrunc, show ((20:Rat) * 100) = 2000 from by norm_num])

/-- users_lookup_amended applied to a malformed user id. -/
theorem users_lookup_amended_witness :
    patchUserRole emptyStore "zz" "Admin" =
      (⟨400, some "Invalid User ID"⟩, emptyStore) :=
  (users_lookup_amended emptyStore "zz" "nobody@example.com" "Admin").1 (by decide)

end ContestHub
